import Mathlib

/-!
Shallow embedding of the COMPAIR backend (src/backend) for checking its
natural-language specification.

Scope of the embedding:
* `src/backend/database/repository.py` — the comparison cache
  (`get_cached_comparison`, `cache_comparison`) and the conversation store
  (`get_conversation`, `add_message_to_conversation`).
* `src/backend/main.py` — the `/compare` handler (`compare_items`) and the
  `/ask-followup` handler (`ask_followup`).
* `src/backend/models/model.py` — the pydantic request/response models.
* `src/backend/utilities/storage.py` — the in-process `conversation_memory`
  map and the thin wrappers around the repository functions (the wrappers
  only open a session and delegate, so they are inlined here).

Modelling conventions:
* Python strings are Lean `String`s; `str.strip` / `str.lower` are modelled
  character-wise on `String.data` (the repository only ever compares such
  strings for equality and orders them lexicographically by code point,
  which the models below reproduce).
* `datetime.utcnow()` is an explicit `now : Nat` argument (seconds);
  `timedelta(hours = h)` is `h * 3600`.
* Database tables are Lean lists in insertion order; SQLAlchemy
  `query(...).first()` is `List.find?`; a row `UPDATE` replaces the first
  matching row in place; `db.add` appends.  The repository runs on the
  default SQLite `DATABASE_URL`, so the SQLite branch of
  `get_cached_comparison` is the one embedded.
* The Python dict `conversation_memory` is an association list whose reads
  take the first matching key; key assignment is modelled by prepending,
  which gives the same read semantics as dict assignment.
* `uuid.uuid4()` is an explicit `freshId : String` argument.
* The LLM and search collaborators are out of scope (per the spec); the LLM
  is an environment value: a flag for whether it is configured plus the
  parsed `ComparisonOutput` it would return.
-/

/-! ### Python string primitives -/

/-- Python `str.lower`, character-wise (`Char.toLower` is exactly the
ASCII case mapping applied by `str.lower` on the ASCII range). -/
def pyLower (s : String) : String := ⟨s.data.map Char.toLower⟩

/-- Python `str.strip`: remove leading and trailing whitespace. -/
def pyStrip (s : String) : String :=
  ⟨((s.data.dropWhile Char.isWhitespace).reverse.dropWhile Char.isWhitespace).reverse⟩

/-- Lexicographic strict order on char lists by code point, as Python
compares strings. -/
def charListLt : List Char → List Char → Bool
  | [], [] => false
  | [], _ :: _ => true
  | _ :: _, [] => false
  | a :: as, b :: bs => if a = b then charListLt as bs else decide (a < b)

/-- Python `<=` on strings (total order: `a <= b` iff not `b < a`). -/
def pyStrLe (a b : String) : Bool := !(charListLt b.data a.data)

/-- The ordering relation used to model Python `sorted` on strings. -/
def strLe (a b : String) : Prop := pyStrLe a b = true

instance : DecidableRel strLe :=
  fun a b => inferInstanceAs (Decidable (pyStrLe a b = true))

/-- Python `sorted` on strings: ascending lexicographic order.  Since
`strLe` is antisymmetric, every correct sort produces the same list, so
insertion sort is extensionally the Python sort. -/
def pySorted (l : List String) : List String := l.insertionSort strLe


/-! ### Data model (src/backend/models/model.py) -/

/-- Pydantic `UserPreferences` (model.py lines 12-25). -/
structure UserPreferences where
  priorities : Option (List String)
  budget : Option String
  use_case : Option String
deriving DecidableEq

/-- Pydantic `CompareRequest` (model.py lines 28-33). -/
structure CompareRequest where
  category : String
  items : List String
  criteria : Option String
  user_preferences : Option UserPreferences
deriving DecidableEq

/-- Pydantic `ComparisonOutput` (model.py lines 58-91): the payload
`parser.parse` produces from the LLM response.  The `table` entries are
dicts; they are modelled as key/value lists, which is enough because the
code never inspects them. -/
structure ComparisonOutput where
  introduction : Option String
  table : Option (List (List (String × String)))
  pros : Option (List String)
  cons : Option (List String)
  recommendation : Option String
  personalized_winner : Option String
  winner_reason : Option String
  message : Option String
deriving DecidableEq

/-- A `result_dict` as handled by main.py: `ComparisonOutput.dict()` plus
the three metadata keys the handler may add (`comparison_id`, `items`,
`category`).  `none` models both an absent key and a key with value
`None` (the code only reads these keys via `.get`/serialization, where
the two behave identically). -/
structure ResultDict extends ComparisonOutput where
  comparison_id : Option String
  items : Option (List String)
  category : Option String
deriving DecidableEq

/-- `result.dict()` of a freshly parsed LLM output (no metadata keys). -/
def ComparisonOutput.toResultDict (o : ComparisonOutput) : ResultDict :=
  ⟨o, none, none, none⟩

/-- Python truthiness of an optional string (`None` and `""` are falsy). -/
def pyTruthy : Option String → Bool
  | none => false
  | some s => !(s == "")

/-- Python truthiness of an optional list (`None` and `[]` are falsy). -/
def pyTruthyList : Option (List String) → Bool
  | none => false
  | some l => !l.isEmpty

/-! ### Cache repository (src/backend/database/repository.py lines 263-331) -/

/-- The normalized-preferences value: the repository replaces a falsy
(`None`) preference dict by the empty dict and otherwise keeps the dict
given by the caller (which, coming from `UserPreferences.dict()`, always
has the three keys, possibly with `None` values — such a dict is truthy
and is NOT collapsed to the empty dict). -/
inductive PrefsDict where
  | empty : PrefsDict
  | dict (priorities : Option (List String)) (budget : Option String)
      (use_case : Option String) : PrefsDict
deriving DecidableEq

/-- `user_preferences if user_preferences else {}` where main.py passes
`data.user_preferences.dict() if data.user_preferences else None`. -/
def normalize_prefs : Option UserPreferences → PrefsDict
  | none => .empty
  | some p => .dict p.priorities p.budget p.use_case

/-- `sorted([item.lower().strip() for item in items])` (repository.py
lines 267 and 317). -/
def normalize_items (items : List String) : List String :=
  pySorted (items.map (fun item => pyStrip (pyLower item)))

/-- A `comparison_cache` row (database/models.py `ComparisonCache`):
the columns the repository reads, with the result payload kept generic.
`created_at` is never read and is omitted. -/
structure ComparisonCache (α : Type) where
  category : String
  items : List String
  user_preferences : PrefsDict
  result : α
  expires_at : Option Nat
deriving DecidableEq

/-- The SQLite-branch row filter of `get_cached_comparison`
(repository.py lines 294-300). -/
def cache_key_match {α : Type} (category : String) (normalized_items : List String)
    (normalized_prefs : PrefsDict) (c : ComparisonCache α) : Bool :=
  decide (c.category = category ∧ c.items = normalized_items ∧
    c.user_preferences = normalized_prefs)

/-- `get_cached_comparison` (repository.py lines 263-310, SQLite branch):
find the first row matching the normalized key; if it carries an expiry
strictly in the past, delete it and report a miss; otherwise return it.
Returns the result together with the table after the call. -/
def get_cached_comparison {α : Type} [DecidableEq α] (db : List (ComparisonCache α))
    (now : Nat) (category : String) (items : List String)
    (user_preferences : Option UserPreferences) :
    Option (ComparisonCache α) × List (ComparisonCache α) :=
  let normalized_items := normalize_items items
  let normalized_prefs := normalize_prefs user_preferences
  match db.find? (cache_key_match category normalized_items normalized_prefs) with
  | some cache =>
    match cache.expires_at with
    | some t => if t < now then (none, db.erase cache) else (some cache, db)
    | none => (some cache, db)
  | none => (none, db)

/-- `cache_comparison` (repository.py lines 313-331): always insert a new
row with the normalized key and `expires_at = now + expires_in_hours`. -/
def cache_comparison {α : Type} (db : List (ComparisonCache α)) (now : Nat)
    (category : String) (items : List String) (result : α)
    (user_preferences : Option UserPreferences) (expires_in_hours : Nat) :
    List (ComparisonCache α) :=
  db ++ [⟨category, normalize_items items, normalize_prefs user_preferences,
    result, some (now + expires_in_hours * 3600)⟩]

/-! ### Conversation repository (repository.py lines 210-258) -/

/-- An element of a `Conversation.messages` JSON column
(repository.py lines 243-247). -/
structure ConversationMessage where
  role : String
  content : String
  timestamp : Nat
deriving DecidableEq

/-- A `conversations` row (database/models.py `Conversation`): the columns
the handlers read.  `user_id`, `created_at` and `updated_at` are never
read on these paths and are omitted. -/
structure Conversation (α : Type) where
  comparison_id : String
  messages : List ConversationMessage
  original_comparison : α
  items : List String
  category : String
deriving DecidableEq

/-- `get_conversation` (repository.py lines 229-233). -/
def get_conversation {α : Type} (db : List (Conversation α)) (comparison_id : String) :
    Option (Conversation α) :=
  db.find? (fun c => c.comparison_id == comparison_id)

/-- Replace the first element satisfying `p` by its image under `f`
(models an in-place SQLAlchemy row update). -/
def updateFirst {β : Type} (p : β → Bool) (f : β → β) : List β → List β
  | [] => []
  | x :: xs => if p x then f x :: xs else x :: updateFirst p f xs

/-- `add_message_to_conversation` (repository.py lines 236-251): if a
conversation row with this `comparison_id` exists, append the message to
it and commit; otherwise do nothing and return `None`.  (The row found by
`get_conversation` is the first match, so the update rewrites the first
matching row.) -/
def add_message_to_conversation {α : Type} (db : List (Conversation α)) (now : Nat)
    (comparison_id role content : String) :
    Option (Conversation α) × List (Conversation α) :=
  match get_conversation db comparison_id with
  | none => (none, db)
  | some conversation =>
    let updated : Conversation α :=
      { conversation with messages := conversation.messages ++ [⟨role, content, now⟩] }
    (some updated,
      updateFirst (fun c => c.comparison_id == comparison_id) (fun c =>
        { c with messages := c.messages ++ [⟨role, content, now⟩] }) db)

/-! ### Process state (src/backend/utilities/storage.py, main.py) -/

/-- An entry of a `ChatMessageHistory` transcript (role is `"user"` or
`"assistant"` as rendered by `/followup-history`). -/
structure ChatMessage where
  role : String
  content : String
deriving DecidableEq

/-- A value of the in-memory `conversation_memory` map
(main.py lines 301-306). -/
structure SessionEntry where
  chat_history : List ChatMessage
  original_comparison : ResultDict
  items : List String
  category : String
deriving DecidableEq

/-- Python `dict.get` on an association list whose most recent binding for
a key comes first. -/
def dictGet {β : Type} : List (String × β) → String → Option β
  | [], _ => none
  | (k, v) :: rest, key => if k == key then some v else dictGet rest key

/-- The mutable state the two handlers touch: the `comparison_cache`
table, the process-wide `conversation_memory` dict (storage.py line 28),
and the `conversations` table. -/
structure AppState where
  cache : List (ComparisonCache ResultDict)
  conversation_memory : List (String × SessionEntry)
  conversations : List (Conversation ResultDict)
deriving DecidableEq

/-! ### The /compare handler (src/backend/main.py lines 165-318) -/

/-- `MIN_ITEMS_TO_COMPARE` (utilities/constants.py line 53). -/
def MIN_ITEMS_TO_COMPARE : Nat := 2

/-- `MIN_ITEM_LENGTH` (utilities/constants.py line 54). -/
def MIN_ITEM_LENGTH : Nat := 2

/-- The detail string of the 503 raised when `llm` is `None`
(main.py lines 241-244 and 417-420). -/
def LLM_UNAVAILABLE_DETAIL : String :=
  "LLM service is not available. Please set OPENAI_API_KEY environment variable."

/-- What a handler call produces: a structured non-error JSON body
(either the bare message dict of the validation branches or a result
dict), or an HTTP error response carrying a status code and detail. -/
inductive CompareResult where
  | messageOnly (message : String) : CompareResult
  | output (d : ResultDict) : CompareResult
  | httpError (status : Nat) (detail : String) : CompareResult
deriving DecidableEq

/-- The three short-circuiting validation checks of `compare_items`
(main.py lines 174-192), returning the rejection message if any check
fails.  The duplicate check compares `len(items_lower)` with
`len(set(items_lower))`, i.e. it fires exactly when `items_lower` has a
repeated element; `dedup.length` is the size of that set. -/
def validate_items (items : List String) : Option String :=
  if items.isEmpty || decide (items.length < MIN_ITEMS_TO_COMPARE) then
    some "Please provide at least 2 items to compare."
  else if items.any (fun item => decide ((pyStrip item).length < MIN_ITEM_LENGTH)) then
    some "Please enter clear, distinct, and comparable items."
  else
    let items_lower := items.map (fun item => pyLower (pyStrip item))
    if items_lower.dedup.length ≠ items_lower.length then
      some "Please enter different items to compare."
    else none

/-- The preference-derivation of main.py lines 205-222: true iff some
preference field was supplied and non-empty (the `len(...) > 0` guard on
`priorities` is implied by Python truthiness of the list). -/
def has_preferences : Option UserPreferences → Bool
  | none => false
  | some p => pyTruthyList p.priorities || pyTruthy p.budget || pyTruthy p.use_case

/-- The environment `/compare` reads besides its request: whether the LLM
collaborator is configured (`llm` is not `None`), and the parsed payload
it returns on a cache miss.  Search results only feed the prompt text and
are irrelevant to the embedded control flow. -/
structure LlmEnv where
  llm_configured : Bool
  llm_output : ComparisonOutput
deriving DecidableEq

/-- The body of the `try:` block of `compare_items` (main.py lines
170-314).  `freshId` stands for the `str(uuid.uuid4())` the handler
generates.  On the success path the handler caches `result_dict` first
(the committed copy has no metadata keys), then registers the session and
adds the metadata keys; the session entry aliases the mutated dict, so
its `original_comparison` carries the metadata. -/
def compare_items_body (data : CompareRequest) (env : LlmEnv) (freshId : String)
    (now : Nat) (st : AppState) : CompareResult × AppState :=
  match validate_items data.items with
  | some msg => (.messageOnly msg, st)
  | none =>
    let lookup := get_cached_comparison st.cache now data.category data.items
      data.user_preferences
    let st1 : AppState := { st with cache := lookup.2 }
    match lookup.1 with
    | some cache =>
      (.output { cache.result with
                  comparison_id := some freshId,
                  items := some data.items,
                  category := some data.category }, st1)
    | none =>
      if !env.llm_configured then
        (.httpError 503 LLM_UNAVAILABLE_DETAIL, st1)
      else
        let result_dict := env.llm_output.toResultDict
        if pyTruthy result_dict.message then
          (.output result_dict, st1)
        else
          let result_dict :=
            if !(has_preferences data.user_preferences) then
              { result_dict with personalized_winner := none, winner_reason := none }
            else result_dict
          let cache2 := cache_comparison st1.cache now data.category data.items
            result_dict data.user_preferences 24
          let final := { result_dict with
                          comparison_id := some freshId,
                          items := some data.items,
                          category := some data.category }
          let memory2 := (freshId, SessionEntry.mk [] final data.items data.category)
            :: st1.conversation_memory
          (.output final, ⟨cache2, memory2, st1.conversations⟩)

/-- `str(e)` of a Starlette `HTTPException`, which formats as
"status_code: detail". -/
def http_exception_str (status : Nat) (detail : String) : String :=
  toString status ++ ": " ++ detail

/-- `compare_items` (main.py lines 165-318).  The handler has no
`except HTTPException: raise` clause, so `except Exception` at line 316
also catches the `HTTPException`s raised inside the `try:` block and
re-raises them as a 500 with detail "Comparison failed: {str(e)}". -/
def compare_items (data : CompareRequest) (env : LlmEnv) (freshId : String)
    (now : Nat) (st : AppState) : CompareResult × AppState :=
  match compare_items_body data env freshId now st with
  | (.httpError status detail, st2) =>
    (.httpError 500 ("Comparison failed: " ++ http_exception_str status detail), st2)
  | r => r

/-! ### The /ask-followup handler (src/backend/main.py lines 385-459) -/

/-- What `/ask-followup` produces: the success body of main.py lines
449-453, or an HTTP error (this handler re-raises `HTTPException`s
unchanged, main.py line 455-456). -/
inductive FollowupResult where
  | ok (answer : String) (comparison_id : String) (conversation_history : Nat) :
      FollowupResult
  | httpError (status : Nat) (detail : String) : FollowupResult
deriving DecidableEq

/-- `ask_followup` (main.py lines 385-459).  `answer` stands for the LLM
response content; the prompt assembly is out of scope.  Resolution reads
the fast tier first, then the durable tier (lines 392-403); both misses
give a 404 (lines 405-409).  Both `add_conversation_message` calls write
through `add_message_to_conversation`, which silently does nothing when
no conversation row exists.  The in-memory transcript is appended only
when the fast tier holds the id (lines 439-447). -/
def ask_followup (comparison_id question answer : String) (llm_configured : Bool)
    (now : Nat) (st : AppState) : FollowupResult × AppState :=
  let memory_data := dictGet st.conversation_memory comparison_id
  if memory_data.isNone && (get_conversation st.conversations comparison_id).isNone then
    (.httpError 404 "Comparison not found. Please create a comparison first.", st)
  else if !llm_configured then
    (.httpError 503 LLM_UNAVAILABLE_DETAIL, st)
  else
    let conversations1 :=
      (add_message_to_conversation st.conversations now comparison_id "user" question).2
    let conversations2 :=
      (add_message_to_conversation conversations1 now comparison_id "assistant" answer).2
    match dictGet st.conversation_memory comparison_id with
    | some entry =>
      let updatedEntry := { entry with
        chat_history := entry.chat_history ++ [⟨"user", question⟩, ⟨"assistant", answer⟩] }
      let memory2 := updateFirst (fun kv => kv.1 == comparison_id)
        (fun kv => (kv.1, updatedEntry)) st.conversation_memory
      (.ok answer comparison_id updatedEntry.chat_history.length,
        ⟨st.cache, memory2, conversations2⟩)
    | none =>
      let len :=
        match get_conversation conversations2 comparison_id with
        | some conv => conv.messages.length
        | none => 0
      (.ok answer comparison_id len, ⟨st.cache, st.conversation_memory, conversations2⟩)

/-! ### Order theory for the string sort -/

theorem charListLt_trichotomy :
    ∀ l₁ l₂ : List Char, charListLt l₁ l₂ = true ∨ charListLt l₂ l₁ = true ∨ l₁ = l₂
  | [], [] => Or.inr (Or.inr rfl)
  | [], _ :: _ => Or.inl rfl
  | _ :: _, [] => Or.inr (Or.inl rfl)
  | a :: as, b :: bs => by
    by_cases hab : a = b
    · subst hab
      simp only [charListLt, if_pos rfl]
      rcases charListLt_trichotomy as bs with h | h | h
      · exact Or.inl h
      · exact Or.inr (Or.inl h)
      · exact Or.inr (Or.inr (by rw [h]))
    · rcases lt_trichotomy a b with h | h | h
      · exact Or.inl (by simp [charListLt, hab, h])
      · exact absurd h hab
      · refine Or.inr (Or.inl ?_)
        have hba : ¬ b = a := fun hh => hab hh.symm
        simp [charListLt, hba, h]

theorem charListLt_asymm :
    ∀ l₁ l₂ : List Char, charListLt l₁ l₂ = true → charListLt l₂ l₁ = true → False
  | [], [], h₁, _ => by simp [charListLt] at h₁
  | [], _ :: _, _, h₂ => by simp [charListLt] at h₂
  | _ :: _, [], h₁, _ => by simp [charListLt] at h₁
  | a :: as, b :: bs, h₁, h₂ => by
    by_cases hab : a = b
    · subst hab
      simp only [charListLt, if_pos rfl] at h₁ h₂
      exact charListLt_asymm as bs h₁ h₂
    · have hba : ¬ b = a := fun hh => hab hh.symm
      simp only [charListLt, if_neg hab, decide_eq_true_eq] at h₁
      simp only [charListLt, if_neg hba, decide_eq_true_eq] at h₂
      exact absurd h₂ (not_lt_of_lt h₁)

theorem charListLt_trans :
    ∀ l₁ l₂ l₃ : List Char, charListLt l₁ l₂ = true → charListLt l₂ l₃ = true →
      charListLt l₁ l₃ = true
  | [], _ :: _, _ :: _, _, _ => rfl
  | [], [], _, h₁, _ => by simp [charListLt] at h₁
  | [], _ :: _, [], _, h₂ => by simp [charListLt] at h₂
  | _ :: _, [], _, h₁, _ => by simp [charListLt] at h₁
  | _ :: _, _ :: _, [], _, h₂ => by simp [charListLt] at h₂
  | a :: as, b :: bs, c :: cs, h₁, h₂ => by
    by_cases hab : a = b
    · subst hab
      simp only [charListLt, if_pos rfl] at h₁
      by_cases hbc : a = c
      · subst hbc
        simp only [charListLt, if_pos rfl] at h₂ ⊢
        exact charListLt_trans as bs cs h₁ h₂
      · simp only [charListLt, if_neg hbc, decide_eq_true_eq] at h₂ ⊢
        exact h₂
    · simp only [charListLt, if_neg hab, decide_eq_true_eq] at h₁
      by_cases hbc : b = c
      · subst hbc
        simp [charListLt, hab, h₁]
      · simp only [charListLt, if_neg hbc, decide_eq_true_eq] at h₂
        have hac : a < c := lt_trans h₁ h₂
        have hac' : ¬ a = c := ne_of_lt hac
        simp [charListLt, hac', hac]

theorem strLe_total : ∀ a b : String, strLe a b ∨ strLe b a := by
  intro a b
  unfold strLe pyStrLe
  simp only [Bool.not_eq_true']
  cases h : charListLt b.data a.data
  · exact Or.inl rfl
  · cases h2 : charListLt a.data b.data
    · exact Or.inr rfl
    · exact (charListLt_asymm _ _ h2 h).elim

theorem strLe_trans : ∀ a b c : String, strLe a b → strLe b c → strLe a c := by
  intro a b c hab hbc
  unfold strLe pyStrLe at hab hbc ⊢
  simp only [Bool.not_eq_true'] at hab hbc ⊢
  cases hca : charListLt c.data a.data
  · rfl
  · rcases charListLt_trichotomy a.data b.data with h | h | h
    · have h2 := charListLt_trans _ _ _ hca h
      rw [hbc] at h2
      exact Bool.noConfusion h2
    · rw [hab] at h
      exact Bool.noConfusion h
    · rw [h] at hca
      rw [hbc] at hca
      exact Bool.noConfusion hca

theorem strLe_antisymm : ∀ a b : String, strLe a b → strLe b a → a = b := by
  intro a b hab hba
  unfold strLe pyStrLe at hab hba
  simp only [Bool.not_eq_true'] at hab hba
  rcases charListLt_trichotomy a.data b.data with h | h | h
  · rw [hba] at h
    exact Bool.noConfusion h
  · rw [hab] at h
    exact Bool.noConfusion h
  · cases a
    cases b
    simp only at h
    rw [h]

theorem pySorted_eq_of_perm {l₁ l₂ : List String} (h : l₁.Perm l₂) :
    pySorted l₁ = pySorted l₂ := by
  haveI : IsTotal String strLe := ⟨strLe_total⟩
  haveI : IsTrans String strLe := ⟨fun a b c => strLe_trans a b c⟩
  haveI : IsAntisymm String strLe := ⟨strLe_antisymm⟩
  exact List.eq_of_perm_of_sorted
    ((List.perm_insertionSort _ _).trans (h.trans (List.perm_insertionSort _ _).symm))
    (List.sorted_insertionSort _ _) (List.sorted_insertionSort _ _)

theorem normalize_items_perm {l₁ l₂ : List String} (h : l₁.Perm l₂) :
    normalize_items l₁ = normalize_items l₂ :=
  pySorted_eq_of_perm (h.map _)

/-! ### Claims about the cache (C1, C2, C8) -/

/-- Claim C1, counterexample to the claim as stated: a matching cache
entry whose `expires_at` EQUALS the lookup time is returned as a hit and
is not deleted, although the claim requires every entry with
`expiresAt <= now` to be deleted and treated as absent. -/
theorem C1_counterexample :
    (⟨"cat", ["a", "b"], .empty, 7, some 100⟩ : ComparisonCache Nat).expires_at = some 100 ∧
    get_cached_comparison [⟨"cat", ["a", "b"], .empty, 7, some 100⟩] 100 "cat" ["b", "a"] none =
      (some ⟨"cat", ["a", "b"], .empty, 7, some 100⟩,
        [⟨"cat", ["a", "b"], .empty, 7, some 100⟩]) := by
  constructor
  · rfl
  · decide

/-- Claim C1 (amended): a matching cache entry is deleted and reported
absent exactly when its expiry is strictly in the past
(`expiresAt < now`); it is returned as a hit while `now <= expiresAt`,
and also when it has no expiry at all. -/
theorem C1_cache_expiry_strict {α : Type} [DecidableEq α] (db : List (ComparisonCache α))
    (now : Nat) (category : String) (items : List String)
    (user_preferences : Option UserPreferences) (c : ComparisonCache α)
    (hfind : db.find? (cache_key_match category (normalize_items items)
      (normalize_prefs user_preferences)) = some c) :
    (∀ t, c.expires_at = some t → t < now →
      get_cached_comparison db now category items user_preferences = (none, db.erase c)) ∧
    (∀ t, c.expires_at = some t → now ≤ t →
      get_cached_comparison db now category items user_preferences = (some c, db)) ∧
    (c.expires_at = none →
      get_cached_comparison db now category items user_preferences = (some c, db)) := by
  have hred : get_cached_comparison db now category items user_preferences =
      match c.expires_at with
      | some t => if t < now then (none, db.erase c) else (some c, db)
      | none => (some c, db) := by
    simp only [get_cached_comparison]
    rw [hfind]
  refine ⟨?_, ?_, ?_⟩
  · intro t ht hlt
    rw [hred, ht]
    exact if_pos hlt
  · intro t ht hle
    rw [hred, ht]
    exact if_neg (Nat.not_lt.mpr hle)
  · intro ht
    rw [hred, ht]

/-- Claim C1, witness: a concrete lookup one second before expiry is a
hit and leaves the table unchanged. -/
theorem C1_cache_expiry_strict_witness :
    get_cached_comparison [⟨"cat", ["a", "b"], .empty, 7, some 100⟩] 99 "cat" ["b", "a"] none =
      (some ⟨"cat", ["a", "b"], .empty, 7, some 100⟩,
        [⟨"cat", ["a", "b"], .empty, 7, some 100⟩]) :=
  (C1_cache_expiry_strict [⟨"cat", ["a", "b"], .empty, 7, some 100⟩] 99 "cat" ["b", "a"]
    none ⟨"cat", ["a", "b"], .empty, 7, some 100⟩ (by decide)).2.1 100 rfl (by decide)

/-- Claim C2: storing a comparison and immediately looking it up under
any case/whitespace/order variant of the item list (and an equal
preferences mapping) returns the stored result payload unchanged —
provided no other entry for the same normalized key was already stored
(the lookup returns the first structurally-equal match, so an older
duplicate row would win instead). -/
theorem C2_cache_round_trip {α : Type} [DecidableEq α] (db : List (ComparisonCache α))
    (now : Nat) (category : String) (items variant : List String) (result : α)
    (prefs prefs2 : Option UserPreferences)
    (hvar : normalize_items variant = normalize_items items)
    (hprefs : normalize_prefs prefs2 = normalize_prefs prefs)
    (hfresh : ∀ c ∈ db, cache_key_match category (normalize_items items)
      (normalize_prefs prefs) c = false) :
    (get_cached_comparison (cache_comparison db now category items result prefs 24)
        now category variant prefs2).1.map (fun c => c.result) = some result := by
  have hnone : db.find? (cache_key_match category (normalize_items items)
      (normalize_prefs prefs)) = none :=
    List.find?_eq_none.mpr (fun x hx => by simp [hfresh x hx])
  have hkey : cache_key_match category (normalize_items items) (normalize_prefs prefs)
      (⟨category, normalize_items items, normalize_prefs prefs, result,
        some (now + 24 * 3600)⟩ : ComparisonCache α) = true := by
    simp [cache_key_match]
  simp only [get_cached_comparison, cache_comparison, hvar, hprefs]
  rw [List.find?_append, hnone]
  simp only [Option.none_or]
  rw [List.find?_cons_of_pos _ hkey]
  simp [Nat.not_lt.mpr (Nat.le_add_right now (24 * 3600))]

/-- Claim C2, witness: store under one spelling, look up under a
case/whitespace/order variant, get the stored payload back. -/
theorem C2_cache_round_trip_witness :
    (get_cached_comparison
        (cache_comparison ([] : List (ComparisonCache Nat)) 5 "Gadgets"
          ["iPhone 15", " samsung s24 "] 42 none 24)
        5 "Gadgets" ["Samsung S24", "iphone 15"] none).1.map (fun c => c.result) =
      some 42 :=
  C2_cache_round_trip [] 5 "Gadgets" ["iPhone 15", " samsung s24 "]
    ["Samsung S24", "iphone 15"] 42 none none (by decide) (by decide) (by decide)

/-- Claim C8: normalization is invariant under permutation of the item
list, the store path writes exactly the key the lookup path computes for
any permutation, and lookups with permuted item lists coincide. -/
theorem C8_normalization_perm_invariant {α : Type} [DecidableEq α]
    (l₁ l₂ : List String) (h : l₁.Perm l₂) (db : List (ComparisonCache α)) (now : Nat)
    (category : String) (result : α) (prefs : Option UserPreferences) :
    normalize_items l₁ = normalize_items l₂ ∧
    cache_comparison db now category l₁ result prefs 24 =
      db ++ [⟨category, normalize_items l₂, normalize_prefs prefs, result,
        some (now + 24 * 3600)⟩] ∧
    get_cached_comparison db now category l₁ prefs =
      get_cached_comparison db now category l₂ prefs := by
  have hkey := normalize_items_perm h
  refine ⟨hkey, ?_, ?_⟩
  · simp [cache_comparison, hkey]
  · simp [get_cached_comparison, hkey]

/-- Claim C8, witness: a concrete permutation normalizes identically. -/
theorem C8_normalization_perm_invariant_witness :
    normalize_items ["iPhone 15", "Samsung S24"] =
      normalize_items ["Samsung S24", "iPhone 15"] :=
  (C8_normalization_perm_invariant ["iPhone 15", "Samsung S24"]
    ["Samsung S24", "iPhone 15"] (by decide) ([] : List (ComparisonCache Nat)) 0
    "Gadgets" 0 none).1

/-! ### Claims about the /compare handler (C4, C5, C6, C7, C9, C10) -/

/-- Claim C4: evaluation at the failing input.  With the LLM collaborator
unconfigured, a valid cache-missing request is NOT answered with the 503
the handler raises: the blanket `except Exception` catches it and
re-raises a generic 500 whose detail wraps `str(e)`. -/
theorem C4_llm_unconfigured_wrapped_500 :
    compare_items ⟨"Gadgets", ["iPhone 15", "Samsung S24"], none, none⟩
        ⟨false, ⟨none, none, none, none, none, none, none, none⟩⟩ "id-1" 5 ⟨[], [], []⟩ =
      (.httpError 500 ("Comparison failed: 503: " ++ LLM_UNAVAILABLE_DETAIL),
        ⟨[], [], []⟩) := by
  decide

/-- Claim C5: when no non-empty preference field was supplied and the LLM
payload carries no rejection message, the returned payload has
`personalized_winner` and `winner_reason` forced to null, regardless of
what the LLM produced for those fields. -/
theorem C5_winner_suppression (data : CompareRequest) (env : LlmEnv) (freshId : String)
    (now : Nat) (st : AppState)
    (hvalid : validate_items data.items = none)
    (hmiss : (get_cached_comparison st.cache now data.category data.items
      data.user_preferences).1 = none)
    (hllm : env.llm_configured = true)
    (hmsg : pyTruthy env.llm_output.message = false)
    (hprefs : has_preferences data.user_preferences = false) :
    ∃ d, (compare_items data env freshId now st).1 = .output d ∧
      d.personalized_winner = none ∧ d.winner_reason = none := by
  simp only [compare_items, compare_items_body, hvalid, hmiss, hllm, hmsg, hprefs,
    ComparisonOutput.toResultDict, Bool.not_true, Bool.not_false, if_true, if_false,
    Bool.false_eq_true, ite_false, ite_true]
  exact ⟨_, rfl, rfl, rfl⟩

/-- Claim C5, witness: the LLM names a winner although no preferences
were given; the response nulls it out. -/
theorem C5_winner_suppression_witness :
    ∃ d, (compare_items ⟨"Gadgets", ["iPhone 15", "Samsung S24"], none, none⟩
        ⟨true, ⟨none, none, none, none, some "Pick the first.", some "iPhone 15",
          some "because", none⟩⟩ "id-1" 5 ⟨[], [], []⟩).1 = .output d ∧
      d.personalized_winner = none ∧ d.winner_reason = none :=
  C5_winner_suppression ⟨"Gadgets", ["iPhone 15", "Samsung S24"], none, none⟩
    ⟨true, ⟨none, none, none, none, some "Pick the first.", some "iPhone 15",
      some "because", none⟩⟩ "id-1" 5 ⟨[], [], []⟩
    (by decide) (by decide) rfl rfl rfl

/-- Helper: the duplicate check of main.py (`len(set(...)) != len(...)`)
fires exactly on lists that are not pairwise distinct. -/
theorem dedup_length_eq_iff_nodup {α : Type} [DecidableEq α] (l : List α) :
    l.dedup.length = l.length ↔ l.Nodup := by
  constructor
  · intro h
    have hsub := List.dedup_sublist l
    have heq := hsub.eq_of_length h
    rw [← heq]
    exact l.nodup_dedup
  · intro h
    rw [List.dedup_eq_self.mpr h]

/-- Claim C6: the three validation checks run in order, short-circuit,
and return exactly the specified structured message bodies (never an
HTTP error). -/
theorem C6_validation_order (data : CompareRequest) (env : LlmEnv) (freshId : String)
    (now : Nat) (st : AppState) :
    ((data.items.isEmpty || decide (data.items.length < MIN_ITEMS_TO_COMPARE)) = true →
      compare_items data env freshId now st =
        (.messageOnly "Please provide at least 2 items to compare.", st)) ∧
    ((data.items.isEmpty || decide (data.items.length < MIN_ITEMS_TO_COMPARE)) = false →
      (data.items.any fun item => decide ((pyStrip item).length < MIN_ITEM_LENGTH)) = true →
      compare_items data env freshId now st =
        (.messageOnly "Please enter clear, distinct, and comparable items.", st)) ∧
    ((data.items.isEmpty || decide (data.items.length < MIN_ITEMS_TO_COMPARE)) = false →
      (data.items.any fun item => decide ((pyStrip item).length < MIN_ITEM_LENGTH)) = false →
      ¬ (data.items.map fun item => pyLower (pyStrip item)).Nodup →
      compare_items data env freshId now st =
        (.messageOnly "Please enter different items to compare.", st)) := by
  refine ⟨?_, ?_, ?_⟩
  · intro h1
    simp [compare_items, compare_items_body, validate_items, h1]
  · intro h1 h2
    simp [compare_items, compare_items_body, validate_items, h1, h2]
  · intro h1 h2 h3
    have h4 : (data.items.map fun item => pyLower (pyStrip item)).dedup.length ≠
        (data.items.map fun item => pyLower (pyStrip item)).length :=
      fun he => h3 ((dedup_length_eq_iff_nodup _).mp he)
    have h5 : (data.items.map fun item => pyLower (pyStrip item)).dedup.length ≠
        data.items.length := by
      rw [show data.items.length =
        (data.items.map fun item => pyLower (pyStrip item)).length from
        (List.length_map _ _).symm]
      exact h4
    simp [compare_items, compare_items_body, validate_items, h1, h2, h5]

/-- Claim C6, witness: one concrete input per validation branch. -/
theorem C6_validation_order_witness :
    compare_items ⟨"Gadgets", ["only"], none, none⟩
        ⟨true, ⟨none, none, none, none, none, none, none, none⟩⟩ "id" 0 ⟨[], [], []⟩ =
      (.messageOnly "Please provide at least 2 items to compare.", ⟨[], [], []⟩) ∧
    compare_items ⟨"Gadgets", ["x", "phone"], none, none⟩
        ⟨true, ⟨none, none, none, none, none, none, none, none⟩⟩ "id" 0 ⟨[], [], []⟩ =
      (.messageOnly "Please enter clear, distinct, and comparable items.", ⟨[], [], []⟩) ∧
    compare_items ⟨"Gadgets", ["Aa", "aA"], none, none⟩
        ⟨true, ⟨none, none, none, none, none, none, none, none⟩⟩ "id" 0 ⟨[], [], []⟩ =
      (.messageOnly "Please enter different items to compare.", ⟨[], [], []⟩) :=
  ⟨(C6_validation_order ⟨"Gadgets", ["only"], none, none⟩
      ⟨true, ⟨none, none, none, none, none, none, none, none⟩⟩ "id" 0 ⟨[], [], []⟩).1
      (by decide),
   (C6_validation_order ⟨"Gadgets", ["x", "phone"], none, none⟩
      ⟨true, ⟨none, none, none, none, none, none, none, none⟩⟩ "id" 0 ⟨[], [], []⟩).2.1
      (by decide) (by decide),
   (C6_validation_order ⟨"Gadgets", ["Aa", "aA"], none, none⟩
      ⟨true, ⟨none, none, none, none, none, none, none, none⟩⟩ "id" 0 ⟨[], [], []⟩).2.2
      (by decide) (by decide) (by decide)⟩

/-- Claim C7: a cache hit is answered with the cached result payload,
its `comparison_id` set to the freshly generated identifier and its
`items` and `category` replaced by the caller-supplied values (the
callers exact casing and spacing), all other fields unchanged; the
stored state is untouched apart from the lookup itself. -/
theorem C7_cache_hit_response (data : CompareRequest) (env : LlmEnv) (freshId : String)
    (now : Nat) (st : AppState) (c : ComparisonCache ResultDict)
    (hvalid : validate_items data.items = none)
    (hhit : (get_cached_comparison st.cache now data.category data.items
      data.user_preferences).1 = some c) :
    compare_items data env freshId now st =
      (.output { c.result with
                  comparison_id := some freshId,
                  items := some data.items,
                  category := some data.category },
        { st with cache := (get_cached_comparison st.cache now data.category data.items
            data.user_preferences).2 }) := by
  simp only [compare_items, compare_items_body, hvalid, hhit]

/-- Claim C7, witness: the cached row stores normalized items and its own
payload metadata; the response echoes the callers exact spelling and a
fresh identifier. -/
theorem C7_cache_hit_response_witness :
    compare_items ⟨"Gadgets", ["IPhone 15", "SAMSUNG S24"], none, none⟩
        ⟨true, ⟨none, none, none, none, none, none, none, none⟩⟩ "fresh-1" 50
        ⟨[⟨"Gadgets", ["iphone 15", "samsung s24"], .empty,
          ⟨⟨some "cached intro", none, none, none, none, none, none, none⟩,
            none, some ["old a", "old b"], some "OldCat"⟩, some 100⟩], [], []⟩ =
      (.output ⟨⟨some "cached intro", none, none, none, none, none, none, none⟩,
          some "fresh-1", some ["IPhone 15", "SAMSUNG S24"], some "Gadgets"⟩,
        ⟨[⟨"Gadgets", ["iphone 15", "samsung s24"], .empty,
          ⟨⟨some "cached intro", none, none, none, none, none, none, none⟩,
            none, some ["old a", "old b"], some "OldCat"⟩, some 100⟩], [], []⟩) :=
  C7_cache_hit_response ⟨"Gadgets", ["IPhone 15", "SAMSUNG S24"], none, none⟩
    ⟨true, ⟨none, none, none, none, none, none, none, none⟩⟩ "fresh-1" 50
    ⟨[⟨"Gadgets", ["iphone 15", "samsung s24"], .empty,
      ⟨⟨some "cached intro", none, none, none, none, none, none, none⟩,
        none, some ["old a", "old b"], some "OldCat"⟩, some 100⟩], [], []⟩
    ⟨"Gadgets", ["iphone 15", "samsung s24"], .empty,
      ⟨⟨some "cached intro", none, none, none, none, none, none, none⟩,
        none, some ["old a", "old b"], some "OldCat"⟩, some 100⟩
    (by decide) (by decide)

/-- Claim C9, counterexample to the claim as stated: when the parsed LLM
payload has a non-empty `message`, the handler returns the FULL parsed
dict, so the body can carry further non-null fields (here a
`recommendation`) alongside `message` — it does not consist of the
message string only. -/
theorem C9_counterexample :
    (compare_items ⟨"Gadgets", ["iPhone 15", "Samsung S24"], none, none⟩
        ⟨true, ⟨none, none, none, none, some "Pick the first.", none, none,
          some "These items cannot be compared."⟩⟩ "id-1" 5 ⟨[], [], []⟩).1 =
      .output ⟨⟨none, none, none, none, some "Pick the first.", none, none,
        some "These items cannot be compared."⟩, none, none, none⟩ ∧
    (⟨⟨none, none, none, none, some "Pick the first.", none, none,
        some "These items cannot be compared."⟩, none, none, none⟩ :
      ResultDict).recommendation = some "Pick the first." := by
  exact ⟨by decide, rfl⟩

/-- Claim C9 (amended): an application-level LLM rejection (non-empty
`message` in the parsed payload) is returned verbatim as the whole parsed
payload — the message plus every other field exactly as the LLM produced
it (each typically null) — without an HTTP error status, and without
winner suppression, caching or session registration. -/
theorem C9_rejection_passthrough (data : CompareRequest) (env : LlmEnv) (freshId : String)
    (now : Nat) (st : AppState)
    (hvalid : validate_items data.items = none)
    (hmiss : (get_cached_comparison st.cache now data.category data.items
      data.user_preferences).1 = none)
    (hllm : env.llm_configured = true)
    (hmsg : pyTruthy env.llm_output.message = true) :
    compare_items data env freshId now st =
      (.output env.llm_output.toResultDict,
        { st with cache := (get_cached_comparison st.cache now data.category data.items
            data.user_preferences).2 }) := by
  simp only [compare_items, compare_items_body, hvalid, hmiss, hllm,
    ComparisonOutput.toResultDict, Bool.not_true, Bool.false_eq_true, if_false]
  simp only [show (⟨env.llm_output, none, none, none⟩ : ResultDict).message =
    env.llm_output.message from rfl, hmsg, if_true]

/-- Claim C9, witness: a concrete rejected comparison is passed through
verbatim with no state change. -/
theorem C9_rejection_passthrough_witness :
    compare_items ⟨"Gadgets", ["iPhone 15", "Samsung S24"], none, none⟩
        ⟨true, ⟨none, none, none, none, none, none, none,
          some "These items cannot be compared."⟩⟩ "id-1" 5 ⟨[], [], []⟩ =
      (.output ⟨⟨none, none, none, none, none, none, none,
          some "These items cannot be compared."⟩, none, none, none⟩,
        ⟨[], [], []⟩) :=
  C9_rejection_passthrough ⟨"Gadgets", ["iPhone 15", "Samsung S24"], none, none⟩
    ⟨true, ⟨none, none, none, none, none, none, none,
      some "These items cannot be compared."⟩⟩ "id-1" 5 ⟨[], [], []⟩
    (by decide) (by decide) rfl rfl

/-- Claim C10: a cache hit returns a fresh identifier without registering
it in the in-memory session map or in durable conversation storage, so a
follow-up request with that identifier fails with the 404 not-found
error. -/
theorem C10_cache_hit_session_absent (data : CompareRequest) (env : LlmEnv)
    (freshId question answer : String) (llm2 : Bool) (now now2 : Nat) (st : AppState)
    (c : ComparisonCache ResultDict)
    (hvalid : validate_items data.items = none)
    (hhit : (get_cached_comparison st.cache now data.category data.items
      data.user_preferences).1 = some c)
    (hmem : dictGet st.conversation_memory freshId = none)
    (hdb : get_conversation st.conversations freshId = none) :
    (∃ d, (compare_items data env freshId now st).1 = .output d ∧
      d.comparison_id = some freshId) ∧
    dictGet (compare_items data env freshId now st).2.conversation_memory freshId = none ∧
    get_conversation (compare_items data env freshId now st).2.conversations freshId = none ∧
    ask_followup freshId question answer llm2 now2 (compare_items data env freshId now st).2 =
      (.httpError 404 "Comparison not found. Please create a comparison first.",
        (compare_items data env freshId now st).2) := by
  have hcomp : compare_items data env freshId now st =
      (.output { c.result with
                  comparison_id := some freshId,
                  items := some data.items,
                  category := some data.category },
        { st with cache := (get_cached_comparison st.cache now data.category data.items
            data.user_preferences).2 }) := by
    simp only [compare_items, compare_items_body, hvalid, hhit]
  rw [hcomp]
  refine ⟨⟨_, rfl, rfl⟩, hmem, hdb, ?_⟩
  simp [ask_followup, hmem, hdb]

/-- Claim C10, witness: a concrete cache hit followed by a follow-up on
the fresh identifier. -/
theorem C10_cache_hit_session_absent_witness :
    ask_followup "fresh-1" "why?" "ans" true 60
        (compare_items ⟨"Gadgets", ["iPhone 15", "Samsung S24"], none, none⟩
          ⟨true, ⟨none, none, none, none, none, none, none, none⟩⟩ "fresh-1" 50
          ⟨[⟨"Gadgets", ["iphone 15", "samsung s24"], .empty,
            ⟨⟨some "cached intro", none, none, none, none, none, none, none⟩,
              none, none, none⟩, some 100⟩], [], []⟩).2 =
      (.httpError 404 "Comparison not found. Please create a comparison first.",
        (compare_items ⟨"Gadgets", ["iPhone 15", "Samsung S24"], none, none⟩
          ⟨true, ⟨none, none, none, none, none, none, none, none⟩⟩ "fresh-1" 50
          ⟨[⟨"Gadgets", ["iphone 15", "samsung s24"], .empty,
            ⟨⟨some "cached intro", none, none, none, none, none, none, none⟩,
              none, none, none⟩, some 100⟩], [], []⟩).2) :=
  (C10_cache_hit_session_absent ⟨"Gadgets", ["iPhone 15", "Samsung S24"], none, none⟩
    ⟨true, ⟨none, none, none, none, none, none, none, none⟩⟩ "fresh-1" "why?" "ans"
    true 50 60
    ⟨[⟨"Gadgets", ["iphone 15", "samsung s24"], .empty,
      ⟨⟨some "cached intro", none, none, none, none, none, none, none⟩,
        none, none, none⟩, some 100⟩], [], []⟩
    ⟨"Gadgets", ["iphone 15", "samsung s24"], .empty,
      ⟨⟨some "cached intro", none, none, none, none, none, none, none⟩,
        none, none, none⟩, some 100⟩
    (by decide) (by decide) rfl rfl).2.2.2

/-! ### Claims about the follow-up message tiers (C3) -/

theorem find?_updateFirst {β : Type} (p : β → Bool) (f : β → β)
    (hpf : ∀ x, p x = true → p (f x) = true) :
    ∀ l : List β, (updateFirst p f l).find? p = (l.find? p).map f
  | [] => rfl
  | x :: xs => by
    cases hx : p x
    · rw [updateFirst, if_neg (by simp [hx])]
      rw [List.find?_cons_of_neg _ (by simp [hx]), List.find?_cons_of_neg _ (by simp [hx])]
      exact find?_updateFirst p f hpf xs
    · rw [updateFirst, if_pos hx]
      rw [List.find?_cons_of_pos _ (hpf x hx), List.find?_cons_of_pos _ hx]
      rfl

theorem get_conversation_updateFirst {α : Type} (db : List (Conversation α)) (id : String)
    (msg : ConversationMessage) :
    get_conversation (updateFirst (fun c => c.comparison_id == id)
        (fun c => { c with messages := c.messages ++ [msg] }) db) id =
      (get_conversation db id).map (fun c => { c with messages := c.messages ++ [msg] }) := by
  unfold get_conversation
  exact find?_updateFirst (fun c => c.comparison_id == id)
    (fun c => { c with messages := c.messages ++ [msg] }) (fun _ hx => hx) db

theorem add_message_found {α : Type} (db : List (Conversation α)) (now : Nat)
    (id role content : String) (conv : Conversation α)
    (h : get_conversation db id = some conv) :
    get_conversation (add_message_to_conversation db now id role content).2 id =
      some { conv with messages := conv.messages ++ [⟨role, content, now⟩] } := by
  simp only [add_message_to_conversation, h]
  rw [get_conversation_updateFirst, h]
  rfl

theorem add_message_not_found {α : Type} (db : List (Conversation α)) (now : Nat)
    (id role content : String) (h : get_conversation db id = none) :
    (add_message_to_conversation db now id role content).2 = db := by
  simp only [add_message_to_conversation, h]

theorem dictGet_updateFirst_const {β : Type} (k : String) (v2 : β) :
    ∀ m : List (String × β),
      dictGet (updateFirst (fun kv => kv.1 == k) (fun kv => (kv.1, v2)) m) k =
        (dictGet m k).map (fun _ => v2)
  | [] => rfl
  | (k2, v) :: rest => by
    cases hk : (k2 == k)
    · simp [updateFirst, dictGet, hk, dictGet_updateFirst_const k v2 rest]
    · simp [updateFirst, dictGet, hk]

/-- Claim C3, counterexample to the claim as stated: with the id held
only by the in-memory tier (the normal situation before the user saves
the comparison), the follow-up call succeeds — yet durable storage ends
up with no record of the exchanged messages, because
`add_message_to_conversation` silently does nothing when no conversation
row exists.  So the message is NOT written to durable storage
unconditionally, and the call does succeed silently without recording
the message durably. -/
theorem C3_counterexample :
    (ask_followup "cid" "q" "ans" true 9
        ⟨[], [("cid", ⟨[], ⟨⟨none, none, none, none, none, none, none, none⟩,
          none, none, none⟩, ["a1", "b1"], "cat"⟩)], []⟩).1 =
      .ok "ans" "cid" 2 ∧
    (ask_followup "cid" "q" "ans" true 9
        ⟨[], [("cid", ⟨[], ⟨⟨none, none, none, none, none, none, none, none⟩,
          none, none, none⟩, ["a1", "b1"], "cat"⟩)], []⟩).2.conversations =
      ([] : List (Conversation ResultDict)) := by
  exact ⟨by decide, by decide⟩

/-- Claim C3 (amended): the follow-up append writes the message pair to
durable storage only when durable storage already holds a conversation
row for the id (otherwise the durable tier is silently left unchanged);
it appends to the in-memory transcript exactly when the fast tier holds
the id, in which case the call succeeds even without any durable row;
and the endpoint fails with the 404 not-found condition exactly when
neither tier has the id. -/
theorem C3_append_message_tiers (id question answer : String) (now : Nat)
    (st : AppState) :
    (dictGet st.conversation_memory id = none →
      get_conversation st.conversations id = none →
      ∀ llm2 : Bool, ask_followup id question answer llm2 now st =
        (.httpError 404 "Comparison not found. Please create a comparison first.", st)) ∧
    (∀ conv, get_conversation st.conversations id = some conv →
      get_conversation (ask_followup id question answer true now st).2.conversations id =
        some { conv with messages := conv.messages ++
          [⟨"user", question, now⟩, ⟨"assistant", answer, now⟩] }) ∧
    (get_conversation st.conversations id = none →
      (ask_followup id question answer true now st).2.conversations = st.conversations) ∧
    (∀ entry, dictGet st.conversation_memory id = some entry →
      dictGet (ask_followup id question answer true now st).2.conversation_memory id =
        some { entry with chat_history := entry.chat_history ++
          [⟨"user", question⟩, ⟨"assistant", answer⟩] }) ∧
    (∀ entry, dictGet st.conversation_memory id = some entry →
      (ask_followup id question answer true now st).1 =
        .ok answer id (entry.chat_history.length + 2)) := by
  refine ⟨?_, ?_, ?_, ?_, ?_⟩
  · intro hm hd llm2
    simp [ask_followup, hm, hd]
  · intro conv hconv
    have h1 := add_message_found st.conversations now id "user" question conv hconv
    have h2 := add_message_found
      (add_message_to_conversation st.conversations now id "user" question).2 now id
      "assistant" answer _ h1
    cases hm : dictGet st.conversation_memory id with
    | none =>
      simp only [ask_followup, hm, hconv, Option.isNone_none, Option.isNone_some,
        Bool.true_and, Bool.not_true, Bool.false_eq_true, if_false, ite_false]
      rw [h2]
      simp
    | some entry =>
      simp only [ask_followup, hm, hconv, Option.isNone_none, Option.isNone_some,
        Bool.false_and, Bool.not_true, Bool.false_eq_true, if_false, ite_false]
      rw [h2]
      simp
  · intro hd
    cases hm : dictGet st.conversation_memory id with
    | none =>
      simp [ask_followup, hm, hd]
    | some entry =>
      have h1 := add_message_not_found st.conversations now id "user" question hd
      have h2 := add_message_not_found st.conversations now id "assistant" answer hd
      simp [ask_followup, hm, hd, h1, h2]
  · intro entry hm
    simp only [ask_followup, hm, Option.isNone_some, Bool.false_and, Bool.not_true,
      Bool.false_eq_true, if_false, ite_false]
    rw [dictGet_updateFirst_const, hm]
    rfl
  · intro entry hm
    simp only [ask_followup, hm, Option.isNone_some, Bool.false_and, Bool.not_true,
      Bool.false_eq_true, if_false, ite_false]
    simp [List.length_append]

/-- Claim C3, witness: one 404 case with both tiers empty; one
memory-only case whose transcript is appended in the fast tier. -/
theorem C3_append_message_tiers_witness :
    ask_followup "nope" "q" "ans" true 9 ⟨[], [], []⟩ =
      (.httpError 404 "Comparison not found. Please create a comparison first.",
        ⟨[], [], []⟩) ∧
    dictGet (ask_followup "cid" "q" "ans" true 9
        ⟨[], [("cid", ⟨[], ⟨⟨none, none, none, none, none, none, none, none⟩,
          none, none, none⟩, ["a1", "b1"], "cat"⟩)], []⟩).2.conversation_memory "cid" =
      some ⟨[⟨"user", "q"⟩, ⟨"assistant", "ans"⟩],
        ⟨⟨none, none, none, none, none, none, none, none⟩, none, none, none⟩,
        ["a1", "b1"], "cat"⟩ :=
  ⟨(C3_append_message_tiers "nope" "q" "ans" 9 ⟨[], [], []⟩).1 rfl rfl true,
   (C3_append_message_tiers "cid" "q" "ans" 9
      ⟨[], [("cid", ⟨[], ⟨⟨none, none, none, none, none, none, none, none⟩,
        none, none, none⟩, ["a1", "b1"], "cat"⟩)], []⟩).2.2.2.1
      ⟨[], ⟨⟨none, none, none, none, none, none, none, none⟩, none, none, none⟩,
        ["a1", "b1"], "cat"⟩ rfl⟩
